import Mathlib

/-!
Verification of the `callback` package of the tencent-im repository: the
inbound webhook receiver (signature check, command registry, event dispatch,
ack responder, and the `Listen` orchestration).  Go functions are embedded as
Lean functions; the HTTP response writer is modelled as an explicit state
value that records the status line and the body chunks written to it; Go's
`int64` arithmetic is modelled on `Int` with explicit wrap-around at `2^64`.
-/

namespace TencentIM

/-! ## Go machine-integer model (`int64` with wrap-around) -/

/-- Reduce an integer into the `int64` range, wrapping modulo `2^64` as Go's
signed arithmetic does. -/
def wrap64 (x : Int) : Int :=
  (x + 9223372036854775808) % 18446744073709551616 - 9223372036854775808

/-- Embedding of `abs` (src/group/api.go:1175): `if x < 0 { return -x }` on
`int64`, so the negation itself wraps (`abs(MinInt64) = MinInt64`). -/
def abs64 (x : Int) : Int :=
  if x < 0 then wrap64 (-x) else x

/-! ## Strings as bytes

Go strings are byte sequences; Go source literals and `strconv` output are
UTF-8, so `[]byte(s)` is the UTF-8 encoding of `s`. -/

/-- UTF-8 encoding of one character, as byte values. -/
def utf8Bytes (c : Char) : List Nat :=
  let n := c.toNat
  if n < 128 then [n]
  else if n < 2048 then [192 + n / 64, 128 + n % 64]
  else if n < 65536 then [224 + n / 4096, 128 + (n / 64) % 64, 128 + n % 64]
  else [240 + n / 262144, 128 + (n / 4096) % 64, 128 + (n / 64) % 64, 128 + n % 64]

/-- Embedding of Go `[]byte(s)`: the UTF-8 bytes of a string. -/
def strBytes (s : String) : List Nat :=
  s.data.flatMap utf8Bytes

/-- One lowercase hexadecimal digit. -/
def hexDigit (n : Nat) : Char :=
  "0123456789abcdef".data.getD n (Char.ofNat 48)

/-- Embedding of `hex.EncodeToString`: two lowercase hex digits per byte. -/
def hexEncode (bs : List Nat) : String :=
  String.mk (bs.flatMap (fun b => [hexDigit (b / 16), hexDigit (b % 16)]))

/-! ## SHA-256 (the `crypto/sha256` dependency of `signCheck`)

A direct executable embedding of FIPS 180-4 SHA-256 over byte lists, with all
32-bit words as `Nat` reduced modulo `2^32`. -/

/-- Addition modulo `2^32`. -/
def add32 (a b : Nat) : Nat := (a + b) % 4294967296

/-- Right rotation of a 32-bit word by `n` (for `0 < n < 32`). -/
def rotr32 (n x : Nat) : Nat := ((x >>> n) + (x <<< (32 - n))) % 4294967296

/-- Bitwise complement on 32 bits. -/
def not32 (x : Nat) : Nat := Nat.xor x 4294967295

/-- SHA-256 `Ch(x,y,z)`. -/
def ch32 (x y z : Nat) : Nat := Nat.xor (Nat.land x y) (Nat.land (not32 x) z)

/-- SHA-256 `Maj(x,y,z)`. -/
def maj32 (x y z : Nat) : Nat :=
  Nat.xor (Nat.land x y) (Nat.xor (Nat.land x z) (Nat.land y z))

/-- SHA-256 `Σ0`. -/
def bigSigma0 (x : Nat) : Nat := Nat.xor (rotr32 2 x) (Nat.xor (rotr32 13 x) (rotr32 22 x))

/-- SHA-256 `Σ1`. -/
def bigSigma1 (x : Nat) : Nat := Nat.xor (rotr32 6 x) (Nat.xor (rotr32 11 x) (rotr32 25 x))

/-- SHA-256 `σ0`. -/
def smallSigma0 (x : Nat) : Nat := Nat.xor (rotr32 7 x) (Nat.xor (rotr32 18 x) (x >>> 3))

/-- SHA-256 `σ1`. -/
def smallSigma1 (x : Nat) : Nat := Nat.xor (rotr32 17 x) (Nat.xor (rotr32 19 x) (x >>> 10))

/-- The 64 SHA-256 round constants. -/
def sha256K : List Nat :=
  [1116352408, 1899447441, 3049323471, 3921009573, 961987163, 1508970993,
   2453635748, 2870763221, 3624381080, 310598401, 607225278, 1426881987,
   1925078388, 2162078206, 2614888103, 3248222580, 3835390401, 4022224774,
   264347078, 604807628, 770255983, 1249150122, 1555081692, 1996064986,
   2554220882, 2821834349, 2952996808, 3210313671, 3336571891, 3584528711,
   113926993, 338241895, 666307205, 773529912, 1294757372, 1396182291,
   1695183700, 1986661051, 2177026350, 2456956037, 2730485921, 2820302411,
   3259730800, 3345764771, 3516065817, 3600352804, 4094571909, 275423344,
   430227734, 506948616, 659060556, 883997877, 958139571, 1322822218,
   1537002063, 1747873779, 1955562222, 2024104815, 2227730452, 2361852424,
   2428436474, 2756734187, 3204031479, 3329325298]

/-- The eight working registers of the compression function. -/
structure Sha256St where
  a : Nat
  b : Nat
  c : Nat
  d : Nat
  e : Nat
  f : Nat
  g : Nat
  h : Nat
deriving DecidableEq

/-- The SHA-256 initial hash value. -/
def sha256Init : Sha256St :=
  ⟨1779033703, 3144134277, 1013904242, 2773480762,
   1359893119, 2600822924, 528734635, 1541459225⟩

/-- A big-endian 32-bit word from four bytes. -/
def word32 (b0 b1 b2 b3 : Nat) : Nat := ((b0 * 256 + b1) * 256 + b2) * 256 + b3

/-- The first sixteen message-schedule words of a 64-byte block. -/
def blockWords : List Nat → List Nat
  | b0 :: b1 :: b2 :: b3 :: rest => word32 b0 b1 b2 b3 :: blockWords rest
  | _ => []

/-- Extend the message schedule by `n` further words. -/
def extendSchedule : Nat → List Nat → List Nat
  | 0, w => w
  | n + 1, w =>
    let len := w.length
    let next := add32 (add32 (smallSigma1 (w.getD (len - 2) 0)) (w.getD (len - 7) 0))
                      (add32 (smallSigma0 (w.getD (len - 15) 0)) (w.getD (len - 16) 0))
    extendSchedule n (w ++ [next])

/-- One round of the compression function, consuming a `(Kt, Wt)` pair. -/
def sha256Round (s : Sha256St) (kw : Nat × Nat) : Sha256St :=
  let t1 := add32 s.h (add32 (bigSigma1 s.e) (add32 (ch32 s.e s.f s.g) (add32 kw.1 kw.2)))
  let t2 := add32 (bigSigma0 s.a) (maj32 s.a s.b s.c)
  ⟨add32 t1 t2, s.a, s.b, s.c, add32 s.d t1, s.e, s.f, s.g⟩

/-- Compress one 64-byte block into the running state. -/
def sha256Compress (st : Sha256St) (block : List Nat) : Sha256St :=
  let w := extendSchedule 48 (blockWords block)
  let r := (sha256K.zip w).foldl sha256Round st
  ⟨add32 st.a r.a, add32 st.b r.b, add32 st.c r.c, add32 st.d r.d,
   add32 st.e r.e, add32 st.f r.f, add32 st.g r.g, add32 st.h r.h⟩

/-- Fold the compression function over consecutive 64-byte blocks (the fuel
argument only bounds the recursion; it is instantiated with the list length,
which always suffices because every step consumes 64 bytes). -/
def sha256Blocks : Nat → Sha256St → List Nat → Sha256St
  | _, st, [] => st
  | 0, st, _ => st
  | fuel + 1, st, l => sha256Blocks fuel (sha256Compress st (l.take 64)) (l.drop 64)

/-- A `Nat` as eight big-endian bytes (the message bit-length field). -/
def be64 (n : Nat) : List Nat :=
  [n >>> 56 % 256, n >>> 48 % 256, n >>> 40 % 256, n >>> 32 % 256,
   n >>> 24 % 256, n >>> 16 % 256, n >>> 8 % 256, n % 256]

/-- A 32-bit word as four big-endian bytes. -/
def be32 (n : Nat) : List Nat :=
  [n >>> 24 % 256, n >>> 16 % 256, n >>> 8 % 256, n % 256]

/-- SHA-256 padding: `0x80`, zeros to 56 mod 64, then the bit length. -/
def sha256Pad (msg : List Nat) : List Nat :=
  msg ++ 128 :: List.replicate ((119 - msg.length % 64) % 64) 0 ++ be64 (8 * msg.length)

/-- SHA-256 of a byte list, as its 32 digest bytes. -/
def sha256 (msg : List Nat) : List Nat :=
  let padded := sha256Pad msg
  let st := sha256Blocks padded.length sha256Init padded
  be32 st.a ++ be32 st.b ++ be32 st.c ++ be32 st.d ++
  be32 st.e ++ be32 st.f ++ be32 st.g ++ be32 st.h

/-- SHA-256 of `"abc"` (FIPS 180-4 appendix test vector), checking the hash
embedding against the published digest. -/
theorem sha256_abc_vector :
    hexEncode (sha256 (strBytes "abc")) =
      "ba7816bf8f01cfea414140de5dae2223b00361a396177a9cb410ff61f20015ad" := by decide

/-! ## The command catalog (src/group/api.go:1041-1064) -/

def commandStateChange : String := "State.StateChange"
def commandBeforeFriendAdd : String := "Sns.CallbackPrevFriendAdd"
def commandBeforeFriendResponse : String := "Sns.CallbackPrevFriendResponse"
def commandAfterFriendAdd : String := "Sns.CallbackFriendAdd"
def commandAfterFriendDelete : String := "Sns.CallbackFriendDelete"
def commandAfterBlacklistAdd : String := "Sns.CallbackBlackListAdd"
def commandAfterBlacklistDelete : String := "Sns.CallbackBlackListDelete"
def commandBeforePrivateMessageSend : String := "C2C.CallbackBeforeSendMsg"
def commandAfterPrivateMessageSend : String := "C2C.CallbackAfterSendMsg"
def commandAfterPrivateMessageReport : String := "C2C.CallbackAfterMsgReport"
def commandAfterPrivateMessageRevoke : String := "C2C.CallbackAfterMsgWithDraw"
def commandBeforeGroupCreate : String := "Group.CallbackBeforeCreateGroup"
def commandAfterGroupCreate : String := "Group.CallbackAfterCreateGroup"
def commandBeforeApplyJoinGroup : String := "Group.CallbackBeforeApplyJoinGroup"
def commandBeforeInviteJoinGroup : String := "Group.CallbackBeforeInviteJoinGroup"
def commandAfterNewMemberJoinGroup : String := "Group.CallbackAfterNewMemberJoin"
def commandAfterMemberExitGroup : String := "Group.CallbackAfterMemberExit"
def commandBeforeGroupMessageSend : String := "Group.CallbackBeforeSendMsg"
def commandAfterGroupMessageSend : String := "Group.CallbackAfterSendMsg"
def commandAfterGroupFull : String := "Group.CallbackAfterGroupFull"
def commandAfterGroupDestroyed : String := "Group.CallbackAfterGroupDestroyed"
def commandAfterGroupInfoChanged : String := "Group.CallbackAfterGroupInfoChanged"

/-! ## The event catalog (src/group/api.go:1066-1089): `type Event int`,
values assigned by `iota + 1`. -/

abbrev Event := Int

def EventStateChange : Event := 1
def EventBeforeFriendAdd : Event := 2
def EventBeforeFriendResponse : Event := 3
def EventAfterFriendAdd : Event := 4
def EventAfterFriendDelete : Event := 5
def EventAfterBlacklistAdd : Event := 6
def EventAfterBlacklistDelete : Event := 7
def EventBeforePrivateMessageSend : Event := 8
def EventAfterPrivateMessageSend : Event := 9
def EventAfterPrivateMessageReport : Event := 10
def EventAfterPrivateMessageRevoke : Event := 11
def EventBeforeGroupCreate : Event := 12
def EventAfterGroupCreate : Event := 13
def EventBeforeApplyJoinGroup : Event := 14
def EventBeforeInviteJoinGroup : Event := 15
def EventAfterNewMemberJoinGroup : Event := 16
def EventAfterMemberExitGroup : Event := 17
def EventBeforeGroupMessageSend : Event := 18
def EventAfterGroupMessageSend : Event := 19
def EventAfterGroupFull : Event := 20
def EventAfterGroupDestroyed : Event := 21
def EventAfterGroupInfoChanged : Event := 22

/-- The payload shape a command decodes into: one tag per payload struct type
named in `parseCommand` (src/group/api.go:1246-1323).  The struct definitions
themselves live in the repository's callback types file, outside src/, so they
are opaque tags here; what `parseCommand` decides — which shape is
instantiated for which command — is fully represented. -/
inductive PayloadShape where
  | StateChange
  | BeforeFriendAdd
  | BeforeFriendResponse
  | AfterFriendAdd
  | AfterFriendDelete
  | AfterBlacklistAdd
  | AfterBlacklistDelete
  | BeforePrivateMessageSend
  | AfterPrivateMessageSend
  | AfterPrivateMessageReport
  | AfterPrivateMessageRevoke
  | BeforeGroupCreate
  | AfterGroupCreate
  | BeforeApplyJoinGroup
  | BeforeInviteJoinGroup
  | AfterNewMemberJoinGroup
  | AfterMemberExitGroup
  | BeforeGroupMessageSend
  | AfterGroupMessageSend
  | AfterGroupFull
  | AfterGroupDestroyed
  | AfterGroupInfoChanged
deriving DecidableEq

/-- The 22 cases of the `parseCommand` switch (src/group/api.go:1247-1313),
as an ordered table `command ↦ (Event, payload shape)`. -/
def commandEntries : List (String × Event × PayloadShape) :=
  [(commandStateChange, EventStateChange, PayloadShape.StateChange),
   (commandBeforeFriendAdd, EventBeforeFriendAdd, PayloadShape.BeforeFriendAdd),
   (commandBeforeFriendResponse, EventBeforeFriendResponse, PayloadShape.BeforeFriendResponse),
   (commandAfterFriendAdd, EventAfterFriendAdd, PayloadShape.AfterFriendAdd),
   (commandAfterFriendDelete, EventAfterFriendDelete, PayloadShape.AfterFriendDelete),
   (commandAfterBlacklistAdd, EventAfterBlacklistAdd, PayloadShape.AfterBlacklistAdd),
   (commandAfterBlacklistDelete, EventAfterBlacklistDelete, PayloadShape.AfterBlacklistDelete),
   (commandBeforePrivateMessageSend, EventBeforePrivateMessageSend, PayloadShape.BeforePrivateMessageSend),
   (commandAfterPrivateMessageSend, EventAfterPrivateMessageSend, PayloadShape.AfterPrivateMessageSend),
   (commandAfterPrivateMessageReport, EventAfterPrivateMessageReport, PayloadShape.AfterPrivateMessageReport),
   (commandAfterPrivateMessageRevoke, EventAfterPrivateMessageRevoke, PayloadShape.AfterPrivateMessageRevoke),
   (commandBeforeGroupCreate, EventBeforeGroupCreate, PayloadShape.BeforeGroupCreate),
   (commandAfterGroupCreate, EventAfterGroupCreate, PayloadShape.AfterGroupCreate),
   (commandBeforeApplyJoinGroup, EventBeforeApplyJoinGroup, PayloadShape.BeforeApplyJoinGroup),
   (commandBeforeInviteJoinGroup, EventBeforeInviteJoinGroup, PayloadShape.BeforeInviteJoinGroup),
   (commandAfterNewMemberJoinGroup, EventAfterNewMemberJoinGroup, PayloadShape.AfterNewMemberJoinGroup),
   (commandAfterMemberExitGroup, EventAfterMemberExitGroup, PayloadShape.AfterMemberExitGroup),
   (commandBeforeGroupMessageSend, EventBeforeGroupMessageSend, PayloadShape.BeforeGroupMessageSend),
   (commandAfterGroupMessageSend, EventAfterGroupMessageSend, PayloadShape.AfterGroupMessageSend),
   (commandAfterGroupFull, EventAfterGroupFull, PayloadShape.AfterGroupFull),
   (commandAfterGroupDestroyed, EventAfterGroupDestroyed, PayloadShape.AfterGroupDestroyed),
   (commandAfterGroupInfoChanged, EventAfterGroupInfoChanged, PayloadShape.AfterGroupInfoChanged)]

/-- The command strings the registry supports. -/
def supportedCommands : List String := commandEntries.map (fun p => p.1)

/-- The switch of `parseCommand`: first (only) entry whose command matches. -/
def parseCommandTable (command : String) : Option (Event × PayloadShape) :=
  (commandEntries.find? (fun p => p.1 == command)).map (fun p => p.2)

/-- The two error sources of `parseCommand`: the fresh
`errors.New("invalid callback command")` of the default switch branch, and an
error propagated from `json.Unmarshal` (src/group/api.go:1314-1320). -/
inductive ParseError where
  | invalidCommand
  | unmarshalJson (msg : String)
deriving DecidableEq

/-- The message `err.Error()` yields for each parse error. -/
def ParseError.message : ParseError → String
  | .invalidCommand => "invalid callback command"
  | .unmarshalJson msg => msg

/-- The behaviour of `json.Unmarshal` into a given payload shape: `none` for a
successful decode, `some msg` for a decode error with message `msg`.  The JSON
decoder is external library code, so `Listen` and `parseCommand` are
parameterized over it. -/
abbrev Unmarshal := PayloadShape → List Nat → Option String

/-- Embedding of `callback.parseCommand` (src/group/api.go:1246-1323): resolve
the command through the switch (unknown command ⇒ the default branch error),
then decode the body into the instantiated payload. -/
def parseCommand (unmarshal : Unmarshal) (command : String) (body : List Nat) :
    Except ParseError (Event × PayloadShape) :=
  match parseCommandTable command with
  | none => Except.error ParseError.invalidCommand
  | some (event, shape) =>
    match unmarshal shape body with
    | some msg => Except.error (ParseError.unmarshalJson msg)
    | none => Except.ok (event, shape)

/-! ## Ack responder (src/group/api.go:1091-1105, 1334-1368) -/

def ackSuccessStatus : String := "OK"
def ackFailureStatus : String := "FAIL"
def ackSuccessCode : Int := 0
def ackFailureCode : Int := 1

def queryAppId : String := "SdkAppid"
def queryCommand : String := "CallbackCommand"
def querySignRequestTime : String := "RequestTime"
def querySign : String := "Sign"

/-- Modelled from the spec: the `BaseResp` envelope struct is declared in the
repository's callback types file, which is not under src/; the spec gives its
shape as `{"ActionStatus": "OK"|"FAIL", "ErrorCode": int, "ErrorInfo": string}`. -/
structure BaseResp where
  ActionStatus : String
  ErrorCode : Int
  ErrorInfo : String
deriving DecidableEq

/-- A JSON string literal (the status and message strings used by this package
contain no characters needing escapes). -/
def jsonString (s : String) : String := "\"" ++ s ++ "\""

/-- Modelled from the spec: `json.Marshal` of a `BaseResp`, whose field tags
live outside src/; the spec's concrete scenario gives the serialized form
`{"ActionStatus":"OK","ErrorCode":0,"ErrorInfo":""}`. -/
def marshalBaseResp (r : BaseResp) : String :=
  "\x7b\"ActionStatus\":" ++ jsonString r.ActionStatus ++
  ",\"ErrorCode\":" ++ toString r.ErrorCode ++
  ",\"ErrorInfo\":" ++ jsonString r.ErrorInfo ++ "\x7d"

/-- The observable state of an `http.ResponseWriter`: the status code set by
the first `WriteHeader` call, and the body chunks written in order. -/
structure RW where
  status : Option Nat
  chunks : List String
deriving DecidableEq

/-- A response writer on which nothing has been written yet. -/
def RW.fresh : RW := ⟨none, []⟩

/-- Embedding of `w.WriteHeader(code)`: the first call sets the status;
later calls are ignored. -/
def writeHeader (code : Nat) (w : RW) : RW :=
  if w.status.isSome then w else { w with status := some code }

/-- Embedding of `w.Write(b)`: append one body chunk. -/
def writeBody (b : String) (w : RW) : RW :=
  { w with chunks := w.chunks ++ [b] }

/-- Embedding of `ack.Ack` (src/group/api.go:1339-1344): marshal the supplied
value, write status 200, write the body.  The value and its serialization are
abstract (`json.Marshal` of an arbitrary value is external library code). -/
def ackAck {α : Type} (marshal : α → String) (v : α) (w : RW) : RW :=
  writeBody (marshal v) (writeHeader 200 w)

/-- Embedding of `ack.AckFailure` (src/group/api.go:1347-1356): the envelope
with status `"FAIL"`, code 1, and the first optional message (default `""`). -/
def ackFailure (message : List String) (w : RW) : RW :=
  ackAck marshalBaseResp
    { ActionStatus := ackFailureStatus, ErrorCode := ackFailureCode,
      ErrorInfo := message.headD "" } w

/-- Embedding of `ack.AckSuccess` (src/group/api.go:1359-1368): the envelope
with status `"OK"`, the supplied code, and the first optional message. -/
def ackSuccess (code : Int) (message : List String) (w : RW) : RW :=
  ackAck marshalBaseResp
    { ActionStatus := ackSuccessStatus, ErrorCode := code,
      ErrorInfo := message.headD "" } w

/-! ## Requests, query extraction, timestamp parsing -/

/-- An inbound HTTP request, as the callback code observes it: the query
parameters in URL order (`net/url` keeps repeated keys as a list of values in
order of occurrence), and the outcome of `ioutil.ReadAll(r.Body)`. -/
structure Request where
  query : List (String × String)
  body : Except String (List Nat)

/-- Embedding of `callback.GetQuery` (src/group/api.go:1326-1332):
`r.URL.Query()[key]` followed by `values[0]` — the first value of the first
occurrence of the key, present even when its value is the empty string. -/
def getQuery (r : Request) (key : String) : Option String :=
  (r.query.find? (fun p => p.1 == key)).map (fun p => p.2)

/-- Accumulate decimal digits; fails on a non-digit. -/
def decDigits : List Char → Option Nat → Option Nat
  | [], acc => acc
  | c :: rest, acc =>
    if 48 ≤ c.toNat ∧ c.toNat ≤ 57 then
      decDigits rest (acc.map (fun a => a * 10 + (c.toNat - 48)))
    else none

/-- Embedding of `strconv.ParseInt(s, 10, 64)`: an optional sign, at least one
decimal digit, and the value within the `int64` range. -/
def parseInt64 (s : String) : Option Int :=
  match s.data with
  | [] => none
  | c :: rest =>
    if c.toNat = 43 then
      (decDigits rest (if rest.isEmpty then none else some 0)).bind
        (fun n => if n ≤ 9223372036854775807 then some (n : Int) else none)
    else if c.toNat = 45 then
      (decDigits rest (if rest.isEmpty then none else some 0)).bind
        (fun n => if n ≤ 9223372036854775808 then some (-(n : Int)) else none)
    else
      (decDigits (c :: rest) (some 0)).bind
        (fun n => if n ≤ 9223372036854775807 then some (n : Int) else none)

/-- Embedding of `callback.signCheck` (src/group/api.go:1156-1172): reject a
timestamp outside the one-minute window (with Go `int64` arithmetic for the
subtraction and for `abs`), then compare the presented signature against
`hex(SHA-256(token || decimal(requestTime)))`; `now` is `time.Now().Unix()`. -/
def signCheck (sign : String) (requestTime : Int) (token : String) (now : Int) :
    Except String Unit :=
  if abs64 (wrap64 (now - requestTime)) ≥ 60 then Except.error "request time expired"
  else
    let data := token ++ toString requestTime
    let signStr := hexEncode (sha256 (strBytes data))
    if sign ≠ signStr then Except.error "invalid signature" else Except.ok ()

/-! ## The callback object, registration, and the Listen pipeline -/

/-- The `callback` struct (src/group/api.go:1121-1126): the configured app id,
the optional shared secret, and the handler table.  `H` is the type of
registered handler values (`EventHandlerFunc` in Go); the mutex only
serializes map access and has no sequential content. -/
structure Callback (H : Type) where
  appId : Int
  token : String
  handlers : Event → Option H

/-- Embedding of `NewCallback` (src/group/api.go:1142-1151): an empty handler
map, and the first variadic token if one is given. -/
def newCallback {H : Type} (appId : Int) (token : List String) : Callback H :=
  { appId := appId, token := token.headD "", handlers := fun _ => none }

/-- Embedding of `callback.Register` (src/group/api.go:1183-1187): map
assignment, replacing any previous handler for the event. -/
def register {H : Type} (c : Callback H) (event : Event) (handler : H) : Callback H :=
  { c with handlers := fun e => if e = event then some handler else c.handlers e }

/-- The signature-verification phase of `Listen` (src/group/api.go:1193-1213):
`some msg` when Listen acks failure with `msg` and returns, `none` when the
pipeline proceeds past verification. -/
def listenAuth (token : String) (now : Int) (r : Request) : Option String :=
  if token ≠ "" then
    match getQuery r querySign with
    | none => some "invalid sign"
    | some sign =>
      match getQuery r querySignRequestTime with
      | none => some "invalid request time"
      | some requestTime =>
        match parseInt64 requestTime with
        | none => some "parse request time err"
        | some requestTimeInt =>
          match signCheck sign requestTimeInt token now with
          | Except.error e => some e
          | Except.ok _ => none
  else none

/-- How one run of `Listen` ends: an `AckFailure(msg)`, the no-handler
`AckSuccess(0)`, or handing the request to a registered handler. -/
inductive ListenResult (H : Type) where
  | failure (msg : String)
  | success
  | dispatched (handler : H) (event : Event) (shape : PayloadShape)

/-- Embedding of the control flow of `callback.Listen`
(src/group/api.go:1190-1243): signature verification, the app-id string
comparison, the command parameter, the body read, command resolution, and the
handler lookup. -/
def listenOutcome {H : Type} (c : Callback H) (now : Int) (unmarshal : Unmarshal)
    (r : Request) : ListenResult H :=
  match listenAuth c.token now r with
  | some msg => ListenResult.failure msg
  | none =>
    match getQuery r queryAppId with
    | none => ListenResult.failure "invalid sdk appId"
    | some appId =>
      if appId ≠ toString c.appId then ListenResult.failure "invalid sdk appId"
      else
        match getQuery r queryCommand with
        | none => ListenResult.failure "invalid callback command"
        | some command =>
          match r.body with
          | Except.error e => ListenResult.failure e
          | Except.ok body =>
            match parseCommand unmarshal command body with
            | Except.error pe => ListenResult.failure pe.message
            | Except.ok (event, shape) =>
              match c.handlers event with
              | some h => ListenResult.dispatched h event shape
              | none => ListenResult.success

/-- Embedding of `callback.Listen` as a transformer of the response-writer
state: failure
paths ack failure, a decoded event without a handler acks `AckSuccess(0)`, and
a dispatched handler runs with the ack capability over the writer (`run h
shape w` is the writer state after the handler returns). -/
def listen {H : Type} (c : Callback H) (now : Int) (unmarshal : Unmarshal)
    (run : H → PayloadShape → RW → RW) (r : Request) (w : RW) : RW :=
  match listenOutcome c now unmarshal r with
  | ListenResult.failure msg => ackFailure [msg] w
  | ListenResult.success => ackSuccess ackSuccessCode [] w
  | ListenResult.dispatched h _ shape => run h shape w

/-! ## Claim C1 — signature verification -/

/-- The secret of the C1 failing input. -/
def c1Token : String := "secret"

/-- The current Unix time of the C1 failing input. -/
def c1Now : Int := 1760000000

/-- The claimed timestamp of the C1 failing input: `2^63` seconds before
`c1Now`; it lies inside the `int64` range, so `strconv.ParseInt` accepts its
decimal spelling. -/
def c1RequestTime : Int := 1760000000 - 9223372036854775808

/-- The correct signature for `c1RequestTime`: the digest `signCheck` itself
computes for the secret and that timestamp. -/
def c1Sign : String := hexEncode (sha256 (strBytes (c1Token ++ toString c1RequestTime)))

/-- C1: the claim says `signCheck` accepts only when the absolute difference
between the current time and the claimed timestamp is below 60 seconds; but on
the failing input — a correctly signed request whose timestamp is `2^63`
seconds in the past — the `int64` subtraction wraps to `-2^63` and the `abs`
of the source negates it back to `-2^63`, so the `>= 60` expiry test passes
and the request is accepted despite being `2^63` seconds stale. -/
theorem signCheck_accepts_stale_timestamp :
    signCheck c1Sign c1RequestTime c1Token c1Now = Except.ok () ∧
    c1Now - c1RequestTime = 9223372036854775808 ∧
    ¬ ((c1Now - c1RequestTime).natAbs < 60) := by
  refine ⟨?_, by decide, by decide⟩
  unfold signCheck
  rw [if_neg (by decide)]
  exact if_neg (not_not_intro rfl)

/-! ## Claim C2 — the command registry -/

/-- C2: the registry is total and static on its 22-command domain — every
supported command resolves through the table to its own event and payload
shape, the events (and shapes) of distinct commands are pairwise distinct, any
string outside the domain parses to the `invalidCommand` error for every body
and decoder, and for a command in the domain a decode failure propagates as an
`unmarshalJson` error, which is distinct from the unknown-command error. -/
theorem parseCommand_registry_bijective_total :
    supportedCommands.length = 22 ∧
    (∀ p ∈ commandEntries, parseCommandTable p.1 = some p.2) ∧
    (commandEntries.map (fun p => p.2.1)).Pairwise (fun a b => a ≠ b) ∧
    (commandEntries.map (fun p => p.2.2)).Pairwise (fun a b => a ≠ b) ∧
    (∀ command, command ∉ supportedCommands →
      ∀ (u : Unmarshal) (body : List Nat),
        parseCommand u command body = Except.error ParseError.invalidCommand) ∧
    (∀ command event shape, parseCommandTable command = some (event, shape) →
      ∀ (u : Unmarshal) (body : List Nat),
        (∀ msg, u shape body = some msg →
          parseCommand u command body = Except.error (ParseError.unmarshalJson msg)) ∧
        (u shape body = none → parseCommand u command body = Except.ok (event, shape))) ∧
    (∀ msg, ParseError.unmarshalJson msg ≠ ParseError.invalidCommand) := by
  refine ⟨by decide, by decide, by decide, by decide, ?_, ?_, fun msg h => by cases h⟩
  · intro command hc u body
    have ht : commandEntries.find? (fun p => p.1 == command) = none := by
      apply List.find?_eq_none.mpr
      intro p hp h
      exact hc (List.mem_map.mpr ⟨p, hp, by simpa using h⟩)
    simp [parseCommand, parseCommandTable, ht]
  · intro command event shape ht u body
    constructor
    · intro msg hm
      simp [parseCommand, ht, hm]
    · intro hn
      simp [parseCommand, ht, hn]

/-- Witness for C2 at concrete inputs: an unknown command, a decode failure on
a supported command, and a successful decode on a supported command. -/
theorem parseCommand_registry_witness :
    parseCommand (fun _ _ => none) "Bogus.Command" [] =
      Except.error ParseError.invalidCommand ∧
    parseCommand (fun _ _ => some "unexpected end of JSON input") commandStateChange [] =
      Except.error (ParseError.unmarshalJson "unexpected end of JSON input") ∧
    parseCommand (fun _ _ => none) commandAfterGroupCreate [] =
      Except.ok (EventAfterGroupCreate, PayloadShape.AfterGroupCreate) := by
  refine ⟨?_, ?_, ?_⟩
  · exact parseCommand_registry_bijective_total.2.2.2.2.1 "Bogus.Command" (by decide) _ []
  · exact (parseCommand_registry_bijective_total.2.2.2.2.2.1 commandStateChange
      EventStateChange PayloadShape.StateChange (by decide) _ []).1 _ rfl
  · exact (parseCommand_registry_bijective_total.2.2.2.2.2.1 commandAfterGroupCreate
      EventAfterGroupCreate PayloadShape.AfterGroupCreate (by decide) _ []).2 rfl

/-! ## Claim C3 — the ack responder -/

/-- C3: every responder outcome writes HTTP status 200 and one body chunk —
`Ack` writes the serialization of the supplied value; `AckSuccess` writes the
envelope with status `"OK"`, the supplied code, and the first message (or `""`
when none is supplied); `AckFailure` writes the envelope with status `"FAIL"`
and code 1; and no method ever sets a status other than 200 (an already-set
status is left unchanged, since `WriteHeader` only honours its first call). -/
theorem ack_methods_write_200_and_envelope :
    (∀ (α : Type) (marshal : α → String) (v : α) (w : RW),
        (ackAck marshal v w).chunks = w.chunks ++ [marshal v] ∧
        ((ackAck marshal v w).status = w.status ∨ (ackAck marshal v w).status = some 200)) ∧
    (∀ (code : Int) (message : List String) (w : RW),
        ackSuccess code message w =
          ackAck marshalBaseResp ⟨ackSuccessStatus, code, message.headD ""⟩ w) ∧
    (∀ (message : List String) (w : RW),
        ackFailure message w =
          ackAck marshalBaseResp ⟨ackFailureStatus, ackFailureCode, message.headD ""⟩ w) ∧
    (∀ (code : Int) (message : List String),
        (ackSuccess code message RW.fresh).status = some 200 ∧
        (ackSuccess code message RW.fresh).chunks =
          [marshalBaseResp ⟨"OK", code, message.headD ""⟩]) ∧
    (∀ (message : List String),
        (ackFailure message RW.fresh).status = some 200 ∧
        (ackFailure message RW.fresh).chunks =
          [marshalBaseResp ⟨"FAIL", 1, message.headD ""⟩]) := by
  refine ⟨?_, fun code message w => rfl, fun message w => rfl, ?_, ?_⟩
  · intro α marshal v w
    cases hs : w.status with
    | none =>
      exact ⟨by simp [ackAck, writeBody, writeHeader, hs],
        Or.inr (by simp [ackAck, writeBody, writeHeader, hs])⟩
    | some s =>
      exact ⟨by simp [ackAck, writeBody, writeHeader, hs],
        Or.inl (by simp [ackAck, writeBody, writeHeader, hs])⟩
  · intro code message
    exact ⟨rfl, rfl⟩
  · intro message
    exact ⟨rfl, rfl⟩

/-! ## Claim C4 — one ack per request -/

/-- The header write never touches the body chunks. -/
theorem writeHeader_chunks (code : Nat) (w : RW) : (writeHeader code w).chunks = w.chunks := by
  unfold writeHeader
  split <;> rfl

/-- C4 (amended): on every path of `Listen` that does not dispatch to a
registered handler, exactly one response body is written (one chunk is
appended); on the dispatch path `Listen` itself writes nothing and invokes
the handler exactly once, so the response count is whatever the handler
produces. -/
theorem listen_one_ack_unless_handler {H : Type} (c : Callback H) (now : Int)
    (u : Unmarshal) (run : H → PayloadShape → RW → RW) (r : Request) (w : RW) :
    ((∀ (h : H) (e : Event) (sh : PayloadShape),
        listenOutcome c now u r ≠ ListenResult.dispatched h e sh) →
      (listen c now u run r w).chunks.length = w.chunks.length + 1) ∧
    (∀ (h : H) (e : Event) (sh : PayloadShape),
        listenOutcome c now u r = ListenResult.dispatched h e sh →
        listen c now u run r w = run h sh w) := by
  constructor
  · intro hnd
    cases ho : listenOutcome c now u r with
    | failure msg =>
      simp [listen, ho, ackFailure, ackAck, writeBody, writeHeader_chunks]
    | success =>
      simp [listen, ho, ackSuccess, ackAck, writeBody, writeHeader_chunks]
    | dispatched h e sh => exact absurd ho (hnd h e sh)
  · intro h e sh ho
    simp [listen, ho]

/-- The callback object of the C4 counterexample: no secret, app id 1, and a
handler registered for `EventStateChange`. -/
def c4Cfg : Callback Unit :=
  { appId := 1, token := "",
    handlers := fun e => if e = EventStateChange then some () else none }

/-- The request of the C4 counterexample: correct app id, a supported command,
an empty (successfully decoded) body. -/
def c4Req : Request :=
  ⟨[("SdkAppid", "1"), ("CallbackCommand", "State.StateChange")], Except.ok []⟩

/-- C4 counterexample: on the handler-dispatch path the number of responses is
not always one — a handler that never acks leaves the response writer
untouched (zero responses written), and a handler that acks twice writes two
response bodies. -/
theorem listen_ack_count_depends_on_handler :
    (listen c4Cfg 0 (fun _ _ => none) (fun _ _ w => w) c4Req RW.fresh).chunks.length = 0 ∧
    (listen c4Cfg 0 (fun _ _ => none)
        (fun _ _ w => ackSuccess 0 [] (ackSuccess 0 [] w)) c4Req RW.fresh).chunks.length = 2 := by
  constructor <;> rfl

/-- Witness for C4 at a concrete input: a request failing the app-id check
never dispatches, and `Listen` writes exactly one response body on it. -/
theorem listen_one_ack_witness :
    (listen (newCallback 1 [] : Callback Unit) 0 (fun _ _ => none) (fun _ _ w => w)
      ⟨[], Except.ok []⟩ RW.fresh).chunks.length = 0 + 1 :=
  (listen_one_ack_unless_handler (newCallback 1 [] : Callback Unit) 0 (fun _ _ => none)
    (fun _ _ w => w) ⟨[], Except.ok []⟩ RW.fresh).1 (fun _ _ _ hcon => nomatch hcon)

/-! ## Claim C5 — unknown commands -/

/-- C5: when the `CallbackCommand` query parameter is present but not a
supported command string, `Listen` writes a failure acknowledgement (the
`"FAIL"` envelope) and never dispatches to a handler. -/
theorem listen_unknown_command_fails {H : Type} (c : Callback H) (now : Int)
    (u : Unmarshal) (run : H → PayloadShape → RW → RW) (r : Request) (w : RW)
    (command : String) (hc : getQuery r queryCommand = some command)
    (hu : command ∉ supportedCommands) :
    (∃ msg, listen c now u run r w = ackFailure [msg] w) ∧
    (∀ (h : H) (e : Event) (sh : PayloadShape),
        listenOutcome c now u r ≠ ListenResult.dispatched h e sh) := by
  have htable : parseCommandTable command = none := by
    unfold parseCommandTable
    rw [List.find?_eq_none.mpr]
    · rfl
    · intro p hp h
      exact hu (List.mem_map.mpr ⟨p, hp, by simpa using h⟩)
  have hout : ∃ msg, listenOutcome c now u r = ListenResult.failure msg := by
    cases ha : listenAuth c.token now r with
    | some m => exact ⟨m, by simp [listenOutcome, ha]⟩
    | none =>
      cases hq : getQuery r queryAppId with
      | none => exact ⟨"invalid sdk appId", by simp [listenOutcome, ha, hq]⟩
      | some appId =>
        by_cases hid : appId = toString c.appId
        · cases hb : r.body with
          | error e => exact ⟨e, by simp [listenOutcome, ha, hq, hid, hc, hb]⟩
          | ok body =>
            exact ⟨"invalid callback command",
              by simp [listenOutcome, ha, hq, hid, hc, hb, parseCommand, htable,
                       ParseError.message]⟩
        · exact ⟨"invalid sdk appId", by simp [listenOutcome, ha, hq, hid]⟩
  obtain ⟨msg, hm⟩ := hout
  refine ⟨⟨msg, by simp [listen, hm]⟩, ?_⟩
  intro h e sh hcon
  rw [hm] at hcon
  exact ListenResult.noConfusion hcon

/-- The callback object of the C5 witness. -/
def c5Cfg : Callback Unit := { appId := 1, token := "", handlers := fun _ => none }

/-- The request of the C5 witness: correct app id, unknown command. -/
def c5Req : Request :=
  ⟨[("SdkAppid", "1"), ("CallbackCommand", "Group.Bogus")], Except.ok []⟩

/-- Witness for C5 at a concrete input. -/
theorem listen_unknown_command_witness :
    (∃ msg, listen c5Cfg 0 (fun _ _ => none) (fun _ _ w => w) c5Req RW.fresh =
      ackFailure [msg] RW.fresh) ∧
    (∀ (h : Unit) (e : Event) (sh : PayloadShape),
        listenOutcome c5Cfg 0 (fun _ _ => none) c5Req ≠ ListenResult.dispatched h e sh) :=
  listen_unknown_command_fails c5Cfg 0 (fun _ _ => none) (fun _ _ w => w) c5Req RW.fresh
    "Group.Bogus" rfl (by decide)

/-! ## Claim C6 — no registered handler -/

/-- C6: a request that passes verification, the app-id check, command
resolution, and payload decoding, but whose event has no registered handler,
is acknowledged with `AckSuccess(0)`: the body written is exactly
`{"ActionStatus":"OK","ErrorCode":0,"ErrorInfo":""}`. -/
theorem listen_no_handler_acks_success {H : Type} (c : Callback H) (now : Int)
    (u : Unmarshal) (run : H → PayloadShape → RW → RW) (r : Request) (w : RW)
    (command : String) (body : List Nat) (event : Event) (shape : PayloadShape)
    (hauth : listenAuth c.token now r = none)
    (hid : getQuery r queryAppId = some (toString c.appId))
    (hc : getQuery r queryCommand = some command)
    (hb : r.body = Except.ok body)
    (hp : parseCommand u command body = Except.ok (event, shape))
    (hh : c.handlers event = none) :
    listen c now u run r w = ackSuccess 0 [] w ∧
    (listen c now u run r w).chunks =
      w.chunks ++ ["\x7b\"ActionStatus\":\"OK\",\"ErrorCode\":0,\"ErrorInfo\":\"\"\x7d"] := by
  have hout : listenOutcome c now u r = ListenResult.success := by
    simp [listenOutcome, hauth, hid, hc, hb, hp, hh]
  have h1 : listen c now u run r w = ackSuccess 0 [] w := by
    simp [listen, hout, ackSuccessCode]
  refine ⟨h1, ?_⟩
  rw [h1]
  simp [ackSuccess, ackAck, writeBody, writeHeader_chunks]
  rfl

/-- The callback object of the C6 witness: app id 140000000, no secret, no
handlers registered. -/
def c6Cfg : Callback Unit := { appId := 140000000, token := "", handlers := fun _ => none }

/-- The request of the C6 witness: the spec's concrete scenario query. -/
def c6Req : Request :=
  ⟨[("SdkAppid", "140000000"), ("CallbackCommand", "Group.CallbackAfterCreateGroup")],
   Except.ok []⟩

/-- Witness for C6 at a concrete input. -/
theorem listen_no_handler_witness :
    listen c6Cfg 0 (fun _ _ => none) (fun _ _ w => w) c6Req RW.fresh =
      ackSuccess 0 [] RW.fresh ∧
    (listen c6Cfg 0 (fun _ _ => none) (fun _ _ w => w) c6Req RW.fresh).chunks =
      RW.fresh.chunks ++ ["\x7b\"ActionStatus\":\"OK\",\"ErrorCode\":0,\"ErrorInfo\":\"\"\x7d"] :=
  listen_no_handler_acks_success c6Cfg 0 (fun _ _ => none) (fun _ _ w => w) c6Req RW.fresh
    "Group.CallbackAfterCreateGroup" [] EventAfterGroupCreate PayloadShape.AfterGroupCreate
    rfl (by rfl) rfl rfl rfl rfl

/-! ## Claim C7 — no secret configured -/

/-- C7: with no shared secret configured, the `Sign` and `RequestTime` query
parameters are never consulted — two requests that agree on every other query
parameter and on the body drive `Listen` to identical writer states. -/
theorem listen_no_secret_ignores_sign {H : Type} (c : Callback H) (now : Int)
    (u : Unmarshal) (run : H → PayloadShape → RW → RW) (r1 r2 : Request) (w : RW)
    (hc : c.token = "")
    (hq : ∀ k, k ≠ querySign → k ≠ querySignRequestTime → getQuery r1 k = getQuery r2 k)
    (hb : r1.body = r2.body) :
    listen c now u run r1 w = listen c now u run r2 w := by
  have hauth1 : listenAuth c.token now r1 = none := by simp [listenAuth, hc]
  have hauth2 : listenAuth c.token now r2 = none := by simp [listenAuth, hc]
  have happ := hq queryAppId (by decide) (by decide)
  have hcmd := hq queryCommand (by decide) (by decide)
  unfold listen listenOutcome
  rw [hauth1, hauth2, happ, hcmd, hb]

/-- The callback object of the C7 witness. -/
def c7Cfg : Callback Unit := { appId := 5, token := "", handlers := fun _ => none }

/-- A C7 witness request carrying (garbage) `Sign` and `RequestTime` values. -/
def c7Req1 : Request :=
  ⟨[("Sign", "deadbeef"), ("RequestTime", "42"), ("SdkAppid", "5"),
    ("CallbackCommand", "State.StateChange")], Except.ok []⟩

/-- The same request without any signature parameters. -/
def c7Req2 : Request :=
  ⟨[("SdkAppid", "5"), ("CallbackCommand", "State.StateChange")], Except.ok []⟩

/-- Witness for C7 at a concrete input. -/
theorem listen_no_secret_witness :
    listen c7Cfg 0 (fun _ _ => none) (fun _ _ w => w) c7Req1 RW.fresh =
    listen c7Cfg 0 (fun _ _ => none) (fun _ _ w => w) c7Req2 RW.fresh :=
  listen_no_secret_ignores_sign c7Cfg 0 (fun _ _ => none) (fun _ _ w => w) c7Req1 c7Req2
    RW.fresh rfl
    (by
      intro k h1 h2
      have e1 : ("Sign" == k) = false := beq_eq_false_iff_ne.mpr (Ne.symm h1)
      have e2 : ("RequestTime" == k) = false := beq_eq_false_iff_ne.mpr (Ne.symm h2)
      simp [getQuery, c7Req1, c7Req2, List.find?, e1, e2])
    rfl

/-! ## Claim C8 — last registration wins -/

/-- C8: after `Register(E, H1)` then `Register(E, H2)`, the handler stored for
`E` is `H2` (registration replaces, with no conflict surfaced), and any
request resolving to event `E` dispatches to `H2` — never to `H1` when the
two are distinct. -/
theorem register_last_write_wins {H : Type} (c : Callback H) (event : Event)
    (h1 h2 : H) (now : Int) (u : Unmarshal) (r : Request)
    (command : String) (body : List Nat) (shape : PayloadShape)
    (hauth : listenAuth c.token now r = none)
    (hid : getQuery r queryAppId = some (toString c.appId))
    (hc : getQuery r queryCommand = some command)
    (hb : r.body = Except.ok body)
    (hp : parseCommand u command body = Except.ok (event, shape)) :
    (register (register c event h1) event h2).handlers event = some h2 ∧
    listenOutcome (register (register c event h1) event h2) now u r =
      ListenResult.dispatched h2 event shape ∧
    (h1 ≠ h2 → ∀ sh, listenOutcome (register (register c event h1) event h2) now u r ≠
      ListenResult.dispatched h1 event sh) := by
  have hout : listenOutcome (register (register c event h1) event h2) now u r =
      ListenResult.dispatched h2 event shape := by
    simp [listenOutcome, register, hauth, hid, hc, hb, hp]
  refine ⟨by simp [register], hout, ?_⟩
  intro hne sh hcon
  rw [hout] at hcon
  injection hcon with ha _ _
  exact hne ha.symm

/-- The C8 witness request: correct app id, the state-change command. -/
def c8Req : Request :=
  ⟨[("SdkAppid", "1"), ("CallbackCommand", "State.StateChange")], Except.ok []⟩

/-- Witness for C8 at a concrete input: handlers are numbered 10 and 20. -/
theorem register_last_write_wins_witness :
    (register (register (newCallback 1 [] : Callback Nat) EventStateChange 10)
        EventStateChange 20).handlers EventStateChange = some 20 ∧
    listenOutcome (register (register (newCallback 1 [] : Callback Nat) EventStateChange 10)
        EventStateChange 20) 0 (fun _ _ => none) c8Req =
      ListenResult.dispatched 20 EventStateChange PayloadShape.StateChange ∧
    ((10 : Nat) ≠ 20 → ∀ sh,
      listenOutcome (register (register (newCallback 1 [] : Callback Nat) EventStateChange 10)
        EventStateChange 20) 0 (fun _ _ => none) c8Req ≠
      ListenResult.dispatched 10 EventStateChange sh) :=
  register_last_write_wins (newCallback 1 []) EventStateChange 10 20 0 (fun _ _ => none)
    c8Req "State.StateChange" [] PayloadShape.StateChange rfl (by rfl) rfl rfl rfl

/-! ## Claim C9 — GetQuery semantics and the empty signature -/

/-- A SHA-256 digest always has 32 bytes. -/
theorem sha256_length (msg : List Nat) : (sha256 msg).length = 32 := by
  simp [sha256, be32]

/-- A SHA-256 digest is never the empty byte list. -/
theorem sha256_ne_nil (msg : List Nat) : sha256 msg ≠ [] := by
  intro h
  simpa [h] using sha256_length msg

/-- The hex encoding of a nonempty byte list is a nonempty string. -/
theorem hexEncode_ne_empty (bs : List Nat) (hbs : bs ≠ []) : hexEncode bs ≠ "" := by
  cases bs with
  | nil => exact absurd rfl hbs
  | cons b rest =>
    intro h
    have hd := congrArg String.data h
    simp [hexEncode] at hd

/-- C9: `GetQuery` returns the value of the first occurrence of a key (later
duplicates are ignored) and treats a present-but-empty parameter as present;
consequently, with a secret configured and a fresh timestamp, a request whose
`Sign` parameter is present but empty fails the digest comparison with message
`"invalid signature"` (the digest is a nonempty hex string), not the
missing-parameter check. -/
theorem getQuery_first_value_and_empty_sign {H : Type} :
    (∀ (b : Except String (List Nat)) (pre post : List (String × String)) (key v : String),
        (∀ p ∈ pre, p.1 ≠ key) →
        getQuery ⟨pre ++ (key, v) :: post, b⟩ key = some v) ∧
    (∀ (c : Callback H) (now t : Int) (u : Unmarshal)
        (run : H → PayloadShape → RW → RW) (r : Request) (rt : String) (w : RW),
        c.token ≠ "" →
        getQuery r querySign = some "" →
        getQuery r querySignRequestTime = some rt →
        parseInt64 rt = some t →
        abs64 (wrap64 (now - t)) < 60 →
        listenOutcome c now u r = ListenResult.failure "invalid signature" ∧
        listen c now u run r w = ackFailure ["invalid signature"] w) := by
  constructor
  · intro b pre post key v hpre
    induction pre with
    | nil => simp [getQuery]
    | cons p pre ih =>
      have hp : (p.1 == key) = false :=
        beq_eq_false_iff_ne.mpr (hpre p (List.mem_cons_self p pre))
      have ih2 := ih (fun q hq => hpre q (List.mem_cons_of_mem p hq))
      simpa [getQuery, List.find?, hp] using ih2
  · intro c now t u run r rt w htok hsign hrt hparse hwin
    have hsc : signCheck "" t c.token now = Except.error "invalid signature" := by
      unfold signCheck
      rw [if_neg (not_le.mpr hwin)]
      exact if_pos (Ne.symm (hexEncode_ne_empty _ (sha256_ne_nil _)))
    have hauth : listenAuth c.token now r = some "invalid signature" := by
      simp [listenAuth, htok, hsign, hrt, hparse, hsc]
    exact ⟨by simp [listenOutcome, hauth], by simp [listen, listenOutcome, hauth]⟩

/-- The callback object of the C9 witness: a configured secret. -/
def c9Cfg : Callback Unit := { appId := 1, token := "secret", handlers := fun _ => none }

/-- The C9 witness request: `Sign` present but empty, a fresh timestamp, and a
duplicate `Sign` occurrence that the first occurrence shadows. -/
def c9Req : Request :=
  ⟨[("Sign", ""), ("RequestTime", "100"), ("Sign", "ffff"), ("SdkAppid", "1")],
   Except.ok []⟩

/-- Witness for C9 at a concrete input. -/
theorem getQuery_empty_sign_witness :
    getQuery ⟨[("A", "1")] ++ ("Sign", "x") :: [("Sign", "y")], Except.ok []⟩ "Sign" =
      some "x" ∧
    listenOutcome c9Cfg 100 (fun _ _ => none) c9Req =
      ListenResult.failure "invalid signature" ∧
    listen c9Cfg 100 (fun _ _ => none) (fun _ _ w => w) c9Req RW.fresh =
      ackFailure ["invalid signature"] RW.fresh :=
  ⟨(@getQuery_first_value_and_empty_sign Unit).1 (Except.ok []) [("A", "1")]
      [("Sign", "y")] "Sign" "x" (by decide),
   ((@getQuery_first_value_and_empty_sign Unit).2 c9Cfg 100 100 (fun _ _ => none)
      (fun _ _ w => w) c9Req "100" RW.fresh (by decide) rfl rfl (by decide) (by decide)).1,
   ((@getQuery_first_value_and_empty_sign Unit).2 c9Cfg 100 100 (fun _ _ => none)
      (fun _ _ w => w) c9Req "100" RW.fresh (by decide) rfl rfl (by decide) (by decide)).2⟩

/-! ## Claim C10 — NewCallback and the empty secret -/

/-- C10: `NewCallback` keeps only the first variadic token (none yields `""`),
an explicit empty-string secret produces exactly the same callback object as
no secret at all, and signature verification runs exactly when the stored
token is nonempty: an empty token passes every request through verification
untouched, while a nonempty token rejects a request lacking `Sign` with
`"invalid sign"`. -/
theorem newCallback_first_token_and_empty_secret {H : Type} :
    (∀ (appId : Int) (t : String) (rest : List String),
        (newCallback appId (t :: rest) : Callback H).appId = appId ∧
        (newCallback appId (t :: rest) : Callback H).token = t) ∧
    (∀ appId : Int, (newCallback appId [] : Callback H).token = "") ∧
    (∀ (appId : Int) (rest : List String),
        (newCallback appId ("" :: rest) : Callback H) = newCallback appId []) ∧
    (∀ (c : Callback H) (now : Int) (r : Request),
        c.token = "" → listenAuth c.token now r = none) ∧
    (∀ (c : Callback H) (now : Int) (r : Request),
        c.token ≠ "" → getQuery r querySign = none →
        listenAuth c.token now r = some "invalid sign") := by
  refine ⟨fun appId t rest => ⟨rfl, rfl⟩, fun appId => rfl, fun appId rest => rfl, ?_, ?_⟩
  · intro c now r hc
    simp [listenAuth, hc]
  · intro c now r htok hsign
    simp [listenAuth, htok, hsign]

/-- Witness for C10 at concrete inputs. -/
theorem newCallback_witness :
    (newCallback 7 ["", "x"] : Callback Unit) = newCallback 7 [] ∧
    listenAuth (newCallback 7 ["", "x"] : Callback Unit).token 0 ⟨[], Except.ok []⟩ = none ∧
    listenAuth ({ appId := 0, token := "s", handlers := fun _ => none } :
        Callback Unit).token 0 ⟨[], Except.ok []⟩ = some "invalid sign" :=
  ⟨(@newCallback_first_token_and_empty_secret Unit).2.2.1 7 ["x"],
   (@newCallback_first_token_and_empty_secret Unit).2.2.2.1 _ 0 _ rfl,
   (@newCallback_first_token_and_empty_secret Unit).2.2.2.2 _ 0 _ (by decide) rfl⟩

end TencentIM
